import Mathlib

/-!
Verification development for the Katowice flight-board scraper
(two source variants: `19_05_flight.py` and `katowise_v3.py`).

The Python core is embedded shallowly: strings are Lean `String`s, dicts of
raw API fields become a structure of `Option String` fields, the produced
record dict becomes an association list `List (String × PyVal)`, naive
datetimes are minutes since the epoch (`Int`, wall clock) and calendar dates
are days since 1970-01-01 (`Int`, matching Python's proleptic-Gregorian
ordinal dates up to a constant shift).  Character-level operations
(`str.strip`, `str.split`, `str.lower`, `re` patterns, `int`) are embedded at
the ASCII level.  Fallible Python code (raising / catching exceptions) is
embedded with `Option` / `Except`.
-/

set_option maxRecDepth 8192

/-- Python whitespace (`str.split()`, `str.strip()`, regex class `\s`),
restricted to the ASCII whitespace characters. -/
def pyIsSpace (c : Char) : Bool :=
  c = ' ' || c = '\t' || c = '\n' || c = '\r' || c = '\x0b' || c = '\x0c'

/-- Python `str.strip()` with no argument: remove leading and trailing
whitespace. -/
def pyStrip (s : String) : String :=
  String.mk (((s.data.dropWhile pyIsSpace).reverse.dropWhile pyIsSpace).reverse)

/-- Python `str.lower()` (ASCII letters). -/
def pyLower (s : String) : String :=
  String.mk (s.data.map Char.toLower)

/-- Python `str.upper()` (ASCII letters). -/
def pyUpper (s : String) : String :=
  String.mk (s.data.map Char.toUpper)

/-- Helper for `pySplit`: accumulate the current (reversed) run of
non-whitespace characters while scanning the character list. -/
def pySplitAux : List Char → List Char → List (List Char)
  | [], acc => if acc.isEmpty then [] else [acc.reverse]
  | c :: cs, acc =>
    if pyIsSpace c then
      (if acc.isEmpty then [] else [acc.reverse]) ++ pySplitAux cs []
    else
      pySplitAux cs (c :: acc)

/-- Python `str.split()` with no argument: runs of whitespace separate the
tokens, and no empty tokens are produced. -/
def pySplit (s : String) : List String :=
  (pySplitAux s.data []).map String.mk

/-- Split a character list at every occurrence of the separator character:
Python `str.split(sep)` for a one-character separator (empty pieces are
kept). -/
def splitOnChar (sep : Char) : List Char → List (List Char)
  | [] => [[]]
  | c :: cs =>
    let r := splitOnChar sep cs
    if c = sep then [] :: r else (c :: r.headD []) :: r.tail

/-- Python `s.split(sep)` for a one-character separator. -/
def pySplitOn (s : String) (sep : Char) : List String :=
  (splitOnChar sep s.data).map String.mk

/-- Python `s.replace(old, "")` for a one-character `old`: every occurrence
of the character is removed. -/
def pyRemoveAll (s : String) (old : Char) : String :=
  String.mk (s.data.filter (fun c => !(c = old)))

/-- The regex `^\d{2}:\d{2}$` from both `extract_times` variants: exactly two
digits, a colon, and two digits. -/
def isHHMM (t : String) : Bool :=
  match t.data with
  | [a, b, c, d, e] => a.isDigit && b.isDigit && c = ':' && d.isDigit && e.isDigit
  | _ => false

/-- Helper for `pyInt`: after the first digit, Python's `int` accepts digits
with single underscores strictly between digits. -/
def pyIntTail : List Char → Bool
  | [] => true
  | '_' :: c :: cs => c.isDigit && pyIntTail cs
  | c :: cs => c.isDigit && pyIntTail cs

/-- Digit-list value, ignoring grouping underscores. -/
def pyDigitsVal (cs : List Char) : Int :=
  cs.foldl (fun a c => if c = '_' then a else a * 10 + Int.ofNat (c.toNat - 48)) 0

/-- Nonempty all-digit (with grouping underscores) character list to value. -/
def pyIntDigits (cs : List Char) : Option Int :=
  match cs with
  | [] => Option.none
  | c :: rest => if c.isDigit && pyIntTail rest then some (pyDigitsVal cs) else Option.none

/-- Python `int(s)` on a decimal string: surrounding whitespace and one
optional sign are allowed; anything unparsable is a `ValueError`, embedded as
`Option.none` (ASCII digits only). -/
def pyInt (s : String) : Option Int :=
  match (pyStrip s).data with
  | '+' :: rest => pyIntDigits rest
  | '-' :: rest => (pyIntDigits rest).map (fun n => -n)
  | rest => pyIntDigits rest

/-- `hour, minute = map(int, time_str.split(":"))` followed by
`datetime.time(hour, minute)`: the split must yield exactly two
`int`-parsable parts and the pair must be a valid wall-clock time; any
failure raises (embedded as `Option.none`, to be caught by the caller). -/
def parseClock (s : String) : Option (Nat × Nat) :=
  match (pySplitOn s ':').map pyInt with
  | [some h, some m] =>
    if 0 ≤ h ∧ h ≤ 23 ∧ 0 ≤ m ∧ m ≤ 59 then some (h.toNat, m.toNat) else Option.none
  | _ => Option.none

/-- A timezone in the style of `pytz`: `utcoffset` gives the UTC offset in
minutes chosen by `tz.localize` for a naive local datetime (date, hour,
minute); offsets are strictly less than a day in magnitude. -/
structure Tz where
  utcoffset : Int → Nat → Nat → Int
  bounded : ∀ d h m, (utcoffset d h m).natAbs < 1440

/-- Days-since-1970-01-01 to proleptic-Gregorian (year, month, day), the
calendar Python `datetime.date` uses for rendering. -/
def civilFromDays (z0 : Int) : Int × Nat × Nat :=
  let z := z0 + 719468
  let era := Int.fdiv z 146097
  let doe := (z - era * 146097).toNat
  let yoe := (doe - doe / 1460 + doe / 36524 - doe / 146096) / 365
  let y := era * 400 + yoe
  let doy := doe - (365 * yoe + yoe / 4 - yoe / 100)
  let mp := (5 * doy + 2) / 153
  let d := doy - (153 * mp + 2) / 5 + 1
  let m := if mp < 10 then mp + 3 else mp - 9
  (if m ≤ 2 then y + 1 else y, m, d)

/-- Left-pad a decimal string with zeros to width `k`. -/
def padLeftZeros (s : String) (k : Nat) : String :=
  String.mk (List.replicate (k - s.length) '0') ++ s

/-- Two-digit zero-padded decimal rendering. -/
def pad2 (n : Nat) : String := padLeftZeros (toString n) 2

/-- Four-digit zero-padded year rendering. -/
def pad4 (n : Int) : String :=
  if 0 ≤ n then padLeftZeros (toString n.toNat) 4
  else "-" ++ padLeftZeros (toString (-n).toNat) 4

/-- `±HH:MM` rendering of a UTC offset given in minutes, as produced by
`datetime.isoformat` for a `pytz` fixed-offset tzinfo. -/
def offsetStr (off : Int) : String :=
  (if off < 0 then "-" else "+") ++ pad2 (off.natAbs / 60) ++ ":" ++ pad2 (off.natAbs % 60)

/-- `tz.localize(datetime.combine(date, time(h, m))).isoformat(timespec='milliseconds')`:
a fully qualified timezone-aware ISO-8601 timestamp
`YYYY-MM-DDTHH:MM:00.000±HH:MM`. -/
def isoformat (d : Int) (h m : Nat) (off : Int) : String :=
  pad4 (civilFromDays d).1 ++ "-" ++ pad2 (civilFromDays d).2.1 ++ "-" ++
    pad2 (civilFromDays d).2.2 ++ "T" ++
    (pad2 h ++ ":" ++ pad2 m ++ ":00.000" ++ offsetStr off)

/-- `clean_flight_number` from `19_05_flight.py` (lines 115-128): empty input
gives the sentinel; with an internal space, concatenate the first part and the
last part after stripping exactly one leading zero from the latter; with no
space, elide the character at index 2 when it is a zero; otherwise return the
stripped string. -/
def clean_flight_number (flight_number_raw : String) : String :=
  if flight_number_raw = "" then "N/A"
  else
    let s := pyStrip flight_number_raw
    if s.data.contains ' ' then
      let parts := pySplitOn s ' '
      let code := parts.headD ""
      let number := parts.getLastD ""
      let number2 := if number.data.take 1 = ['0'] then String.mk (number.data.drop 1) else number
      code ++ number2
    else if (s.data.drop 2).take 1 = ['0'] then
      String.mk (s.data.take 2 ++ s.data.drop 3)
    else s

/-- Character class `[A-Z0-9]` of the `format_flight_number` regex. -/
def azDigit (c : Char) : Bool := ('A' ≤ c && c ≤ 'Z') || c.isDigit

/-- The `\s*0*(\d+)$` tail of the `format_flight_number` regex, applied after
the carrier-code group: with backtracking, it matches exactly when after the
maximal whitespace run the remainder is a nonempty digit string, and the
captured group is that remainder with its leading zeros stripped (keeping one
final `0` when the remainder is all zeros, since `\d+` must be nonempty). -/
def regexTail (r : List Char) : Option (List Char) :=
  let r2 := r.dropWhile pyIsSpace
  if r2.isEmpty then Option.none
  else if r2.all Char.isDigit then
    some (match r2.dropWhile (fun c => c = '0') with
          | [] => ['0']
          | z => z)
  else Option.none

/-- One greedy attempt of `re.match(r'^([A-Z0-9]\x7b2,3\x7d)\s*0*(\d+)$', s)`
with the carrier-code group bound to the first `k` characters. -/
def fmtTry (s : List Char) (k : Nat) : Option String :=
  if (s.take k).length = k && (s.take k).all azDigit then
    (regexTail (s.drop k)).map (fun g2 => String.mk (s.take k ++ g2))
  else Option.none

/-- `format_flight_number` from `katowise_v3.py` (lines 112-117): match the
stripped input against `^([A-Z0-9]\x7b2,3\x7d)\s*0*(\d+)$` (the quantifier is
greedy: a three-character code is preferred) and concatenate the two groups;
on no match return the original (unstripped) argument. -/
def format_flight_number (raw_flight_number : String) : String :=
  let s := (pyStrip raw_flight_number).data
  match fmtTry s 3 with
  | some r => r
  | Option.none =>
    match fmtTry s 2 with
    | some r => r
    | Option.none => raw_flight_number

/-- `parse_flight_time` from `19_05_flight.py` (lines 130-139): empty input
gives the sentinel; otherwise split on `:`, parse both parts with `int`,
build a `datetime.time`, combine with the query date, localize, and render;
any exception in the body is caught and gives the sentinel. -/
def parse_flight_time_19 (time_str : String) (d : Int) (tz : Tz) : String :=
  if time_str = "" then "N/A"
  else
    match parseClock time_str with
    | some hm => isoformat d hm.1 hm.2 (tz.utcoffset d hm.1 hm.2)
    | Option.none => "N/A"

/-- `parse_flight_time` from `katowise_v3.py` (lines 120-129): same body but
empty input and caught exceptions give `None` instead of the sentinel. -/
def parse_flight_time_v3 (time_str : String) (d : Int) (tz : Tz) : Option String :=
  if time_str = "" then Option.none
  else
    match parseClock time_str with
    | some hm => some (isoformat d hm.1 hm.2 (tz.utcoffset d hm.1 hm.2))
    | Option.none => Option.none

/-- `extract_times` from `19_05_flight.py` (lines 141-157): when the status
has more than one whitespace-separated token and its last token matches
`^\d{2}:\d{2}$`, that token is parsed as both estimated and actual time;
otherwise both stay `"N/A"`; the scheduled time is always parsed from the
`scheduled_time` field.  Returns (scheduled, estimated, actual). -/
def extract_times_19 (status scheduled_time : String) (tz : Tz) (query_date : Int) :
    String × String × String :=
  let parts := pySplit status
  let est :=
    if parts.length > 1 ∧ isHHMM (parts.getLastD "") = true then
      parse_flight_time_19 (parts.getLastD "") query_date tz
    else "N/A"
  (parse_flight_time_19 scheduled_time query_date tz, est, est)

/-- `extract_times` from `katowise_v3.py` (lines 132-151): as in the other
variant, but the parser returns an `Option` and only the estimated/actual
slots are downgraded from `None` to `"N/A"`; the scheduled slot is returned
as-is (possibly `None`). -/
def extract_times_v3 (status scheduled_time : String) (tz : Tz) (query_date : Int) :
    Option String × String × String :=
  let parts := pySplit status
  let estOpt :=
    if parts.length > 1 ∧ isHHMM (parts.getLastD "") = true then
      parse_flight_time_v3 (parts.getLastD "") query_date tz
    else Option.none
  let est := estOpt.getD "N/A"
  (parse_flight_time_v3 scheduled_time query_date tz, est, est)

/-- `is_third_char_alphabet` from `19_05_flight.py` (lines 160-166): `False`
for strings shorter than three characters, otherwise whether the character at
index 2 is not alphabetic. -/
def is_third_char_alphabet (text : String) : Bool :=
  match text.data.drop 2 with
  | [] => false
  | c :: _ => !c.isAlpha

/-- `get_flight_iata` from `19_05_flight.py` (lines 169-170): the first two
characters of the flight number. -/
def get_flight_iata (flight_number : String) : String :=
  String.mk (flight_number.data.take 2)

/-- A value of the produced Python dict: a string, a boolean (the
`is_flight_number` flag), or `None` (possible for time and passthrough
fields in `katowise_v3.py`). -/
inductive PyVal where
  | str (s : String)
  | pybool (b : Bool)
  | pynone
deriving DecidableEq

/-- A produced flight record: the dict as an association list in insertion
order. -/
def Record := List (String × PyVal)

instance : DecidableEq Record := fun a b => List.hasDecEq a b

/-- Dict lookup on a produced record. -/
def recGet (r : Record) (k : String) : Option PyVal :=
  (r.find? (fun p => p.1 == k)).map (fun p => p.2)

/-- `Option String → PyVal` for fields that may be `None`. -/
def pyOfOpt (o : Option String) : PyVal :=
  match o with
  | some s => PyVal.str s
  | Option.none => PyVal.pynone

/-- One raw flight entry of the API response: each field is either absent or
a string.  `flight_data.get(k, "")` is `(·.getD "")`. -/
structure RawFlight where
  flight_number : Option String := Option.none
  airport : Option String := Option.none
  airline_name : Option String := Option.none
  scheduled_time : Option String := Option.none
  status : Option String := Option.none
  terminal : Option String := Option.none
  boarding_gate : Option String := Option.none
  checkin_location : Option String := Option.none
deriving DecidableEq

/-- The static airport-code table of both `get_flights` variants. -/
def airport_codes : List (String × String) :=
  [("Katowice", "KTW"), ("Frankfurt", "FRA"), ("Warsaw", "WAW"),
   ("Munich", "MUC"), ("Split", "SPU"), ("Reykjavík", "KEF"),
   ("Katania", "CTA"), ("Larnaka", "LCA"), ("Alghero", "AHO"),
   ("Teneryfa", "TFS"), ("Rzym", "FCO"), ("Mediolan Bergamo", "BGY"),
   ("Londyn Luton", "LTN")]

/-- Python `dict.get(k, default)` on the airport-code table. -/
def dictGetD (m : List (String × String)) (k dflt : String) : String :=
  match m.find? (fun p => p.1 == k) with
  | some p => p.2
  | Option.none => dflt

/-- `process_flight` from `19_05_flight.py` (lines 172-215): clean the flight
number, strip dots from airport and airline names, extract the three times,
resolve the foreign airport against the code table (falling back to the
space-stripped name) and emit the direction-shaped dict with the
`is_flight_number` heuristic and the `airline_iata_code` field. -/
def process_flight_19 (flight_data : RawFlight) (direction : Nat)
    (codes : List (String × String)) (tz : Tz) (query_date : Int) : Record :=
  let formatted := clean_flight_number (flight_data.flight_number.getD "")
  let airport_name := pyRemoveAll (pyStrip (flight_data.airport.getD "")) '.'
  let airline_name := pyRemoveAll (pyStrip (flight_data.airline_name.getD "")) '.'
  let status := pyStrip (flight_data.status.getD "")
  let times := extract_times_19 status (flight_data.scheduled_time.getD "") tz query_date
  if direction = 2 then
    [("flight_number", PyVal.str formatted),
     ("is_flight_number", PyVal.pybool (is_third_char_alphabet formatted)),
     ("callsign", PyVal.str formatted),
     ("airline", PyVal.str airline_name),
     ("departure_airport", PyVal.str (pyUpper (dictGetD codes airport_name (pyRemoveAll airport_name ' ')))),
     ("arrival_airport", PyVal.str (pyUpper "KTW")),
     ("scheduled_arrival_time", PyVal.str times.1),
     ("estimated_arrival_time", PyVal.str times.2.1),
     ("actual_arrival_time", PyVal.str times.2.2),
     ("status", PyVal.str (if status = "" then "N/A" else status)),
     ("airline_iata_code", PyVal.str (if is_third_char_alphabet formatted then get_flight_iata formatted else "N/A"))]
  else
    [("flight_number", PyVal.str formatted),
     ("is_flight_number", PyVal.pybool (is_third_char_alphabet formatted)),
     ("callsign", PyVal.str formatted),
     ("airline", PyVal.str airline_name),
     ("departure_airport", PyVal.str (pyUpper "KTW")),
     ("arrival_airport", PyVal.str (pyUpper (dictGetD codes airport_name (pyRemoveAll airport_name ' ')))),
     ("scheduled_departure_time", PyVal.str times.1),
     ("estimated_departure_time", PyVal.str times.2.1),
     ("actual_departure_time", PyVal.str times.2.2),
     ("status", PyVal.str (if status = "" then "N/A" else status)),
     ("airline_iata_code", PyVal.str (if is_third_char_alphabet formatted then get_flight_iata formatted else "N/A"))]

/-- `process_flight` from `katowise_v3.py` (lines 154-194), the
four-parameter variant: format the flight number, extract the three times
(the scheduled slot may be `None` here), and emit the direction-shaped dict
with terminal (and, for departures, boarding-gate/check-in passthrough). -/
def process_flight_v3 (flight_data : RawFlight) (direction : Nat)
    (tz : Tz) (query_date : Int) : Record :=
  let formatted := format_flight_number (flight_data.flight_number.getD "")
  let airport_name := flight_data.airport.getD ""
  let airline_name := flight_data.airline_name.getD ""
  let terminal := flight_data.terminal.getD ""
  let status := pyStrip (flight_data.status.getD "")
  let times := extract_times_v3 status (flight_data.scheduled_time.getD "") tz query_date
  if direction = 2 then
    [("flight_number", PyVal.str formatted),
     ("callsign", PyVal.str formatted),
     ("airline", PyVal.str airline_name),
     ("departure_airport", PyVal.str airport_name),
     ("scheduled_arrival_time", pyOfOpt times.1),
     ("estimated_arrival_time", PyVal.str times.2.1),
     ("actual_arrival_time", PyVal.str times.2.2),
     ("status", PyVal.str (if status = "" then "N/A" else status)),
     ("terminal", PyVal.str terminal)]
  else
    [("flight_number", PyVal.str formatted),
     ("callsign", PyVal.str formatted),
     ("airline", PyVal.str airline_name),
     ("arrival_airport", PyVal.str airport_name),
     ("scheduled_departure_time", pyOfOpt times.1),
     ("estimated_departure_time", PyVal.str times.2.1),
     ("actual_departure_time", PyVal.str times.2.2),
     ("status", PyVal.str (if status = "" then "N/A" else status)),
     ("terminal", PyVal.str terminal),
     ("boarding_gate", pyOfOpt flight_data.boarding_gate),
     ("checkin_location", pyOfOpt flight_data.checkin_location)]

/-- `validate_direction` (identical in both files): lower-case and strip the
input, map the departure synonyms to 1 and the arrival synonyms to 2, and
raise `ValueError` on anything else. -/
def validate_direction (direction_str : String) : Except String Nat :=
  let d := pyStrip (pyLower direction_str)
  if d = "departure" ∨ d = "departures" then Except.ok 1
  else if d = "arrival" ∨ d = "arrivals" then Except.ok 2
  else Except.error "Direction must be 'departure' or 'arrival'"

/-- `.date()` of a wall-clock instant in minutes: floor division by the
number of minutes in a day. -/
def dateOf (t : Int) : Int := Int.fdiv t 1440

/-- The `while current_date <= end_date` collection loop of
`calculate_date_window`, with the (sufficient) iteration count made explicit
as structural fuel. -/
def collectDates : Nat → Int → Int → List Int
  | 0, _, _ => []
  | fuel + 1, current, stop =>
    if current ≤ stop then current :: collectDates fuel (current + 1) stop else []

/-- `calculate_date_window` (identical in both files): the calendar dates
from `(now - 12h).date()` through `(now + 12h).date()` inclusive.  The Python
set is embedded as the list of dates in loop order. -/
def calculate_date_window (now : Int) : List Int :=
  let start := dateOf (now - 720)
  let stop := dateOf (now + 720)
  collectDates (stop + 1 - start).toNat start stop

/-- `get_flights` from `19_05_flight.py` (lines 7-68): validate the direction
(failing fast), compute the date window, and for each date fetch the raw
entries (`fetch qd = Option.none` embeds a caught per-date
`requests.RequestException`; the loop then continues) and append each
processed record (`process_flight` always returns a truthy dict, so the
`if flight:` guard always appends). -/
def get_flights_19 (direction_str : String) (now : Int) (tz : Tz)
    (fetch : Int → Option (List RawFlight)) : Except String (List Record) :=
  match validate_direction direction_str with
  | Except.error e => Except.error e
  | Except.ok direction =>
    Except.ok ((calculate_date_window now).foldl (fun acc qd =>
      match fetch qd with
      | Option.none => acc
      | some entries =>
        acc ++ entries.map (fun fd => process_flight_19 fd direction airport_codes tz qd)) [])

/-- Number of positional arguments in the call
`process_flight(flight_data, direction, airport_codes, warsaw_tz, query_date)`
at `katowise_v3.py` line 58. -/
def callArgCount_v3 : Nat := 5

/-- Number of parameters of `def process_flight(flight_data, direction, tz,
query_date)` at `katowise_v3.py` line 154. -/
def paramCount_v3 : Nat := 4

/-- `get_flights` from `katowise_v3.py` (lines 6-65): as in the other
variant, but the per-entry call is embedded through Python's call semantics:
a call whose positional-argument count differs from the callee's parameter
count raises `TypeError` before the body runs, and only
`requests.RequestException` is caught by the loop's handler, so such a
`TypeError` propagates out of `get_flights`. -/
def get_flights_v3 (direction_str : String) (now : Int) (tz : Tz)
    (fetch : Int → Option (List RawFlight)) : Except String (List Record) :=
  match validate_direction direction_str with
  | Except.error e => Except.error e
  | Except.ok direction =>
    (calculate_date_window now).foldlM (fun acc qd =>
      match fetch qd with
      | Option.none => Except.ok acc
      | some entries =>
        entries.foldlM (fun acc2 fd =>
          if callArgCount_v3 = paramCount_v3 then
            Except.ok (acc2 ++ [process_flight_v3 fd direction tz qd])
          else
            Except.error "TypeError: process_flight() takes 4 positional arguments but 5 were given")
          acc) []

/-- A concrete constant-offset timezone (UTC+01:00) used to instantiate the
theorems at concrete inputs. -/
def tz0 : Tz where
  utcoffset := fun _ _ _ => 60
  bounded := fun _ _ _ => by show (60 : Int).natAbs < 1440; decide

deriving instance DecidableEq for Except

/-- A time-field string as the spec's invariant describes it: either the
sentinel, or the timezone-aware ISO-8601 rendering of a valid wall-clock
time on the query date at the timezone's chosen offset. -/
def TimeStrOK (qd : Int) (tz : Tz) (s : String) : Prop :=
  s = "N/A" ∨ ∃ h m, h < 24 ∧ m < 60 ∧ s = isoformat qd h m (tz.utcoffset qd h m)

/-- The six direction-specific time-field keys of the normalized records. -/
def timeFieldNames : List String :=
  ["scheduled_arrival_time", "estimated_arrival_time", "actual_arrival_time",
   "scheduled_departure_time", "estimated_departure_time", "actual_departure_time"]

/-- The estimated/actual time-field keys. -/
def estActFieldNames : List String :=
  ["estimated_arrival_time", "actual_arrival_time",
   "estimated_departure_time", "actual_departure_time"]

/-- The scheduled time-field keys. -/
def schedFieldNames : List String :=
  ["scheduled_arrival_time", "scheduled_departure_time"]

lemma parseClock_bounds {s : String} {hm : Nat × Nat} (h : parseClock s = some hm) :
    hm.1 < 24 ∧ hm.2 < 60 := by
  unfold parseClock at h
  rcases hxs : (pySplitOn s ':').map pyInt with _ | ⟨o1, l1⟩ <;> rw [hxs] at h
  · cases h
  · rcases o1 with _ | a
    · cases h
    · rcases l1 with _ | ⟨o2, l2⟩
      · cases h
      · rcases o2 with _ | b
        · cases h
        · rcases l2 with _ | ⟨o3, l3⟩
          · have h2 : (if 0 ≤ a ∧ a ≤ 23 ∧ 0 ≤ b ∧ b ≤ 59
                then some (a.toNat, b.toNat) else Option.none) = some hm := h
            by_cases hc : 0 ≤ a ∧ a ≤ 23 ∧ 0 ≤ b ∧ b ≤ 59
            · rw [if_pos hc] at h2
              injection h2 with h3
              subst h3
              constructor <;> simp <;> omega
            · rw [if_neg hc] at h2; cases h2
          · cases h

lemma parse19_ok (s : String) (qd : Int) (tz : Tz) :
    TimeStrOK qd tz (parse_flight_time_19 s qd tz) := by
  unfold parse_flight_time_19 TimeStrOK
  split
  · exact Or.inl rfl
  · rcases hpc : parseClock s with _ | hm
    · exact Or.inl rfl
    · exact Or.inr ⟨hm.1, hm.2, (parseClock_bounds hpc).1, (parseClock_bounds hpc).2, rfl⟩

lemma parseV3_ok (s : String) (qd : Int) (tz : Tz) :
    parse_flight_time_v3 s qd tz = Option.none ∨
      ∃ h m, h < 24 ∧ m < 60 ∧
        parse_flight_time_v3 s qd tz = some (isoformat qd h m (tz.utcoffset qd h m)) := by
  unfold parse_flight_time_v3
  split
  · exact Or.inl rfl
  · rcases hpc : parseClock s with _ | hm
    · exact Or.inl rfl
    · exact Or.inr ⟨hm.1, hm.2, (parseClock_bounds hpc).1, (parseClock_bounds hpc).2, rfl⟩


lemma dateOf_add_day (t : Int) : dateOf (t + 1440) = dateOf t + 1 := by
  unfold dateOf
  rw [Int.fdiv_eq_ediv _ (by omega), Int.fdiv_eq_ediv _ (by omega)]
  have h := Int.add_mul_ediv_right t 1 (show (1440 : Int) ≠ 0 by omega)
  rw [one_mul] at h
  exact h

lemma collectDates_two (s : Int) : collectDates 2 s (s + 1) = [s, s + 1] := by
  have e1 : collectDates 2 s (s + 1)
      = if s ≤ s + 1 then s :: collectDates 1 (s + 1) (s + 1) else [] := rfl
  have e2 : collectDates 1 (s + 1) (s + 1)
      = if s + 1 ≤ s + 1 then (s + 1) :: collectDates 0 (s + 1 + 1) (s + 1) else [] := rfl
  rw [e1, if_pos (show s ≤ s + 1 by omega), e2, if_pos (le_refl (s + 1))]
  rfl

lemma calculate_date_window_eq (now : Int) :
    calculate_date_window now = [dateOf (now - 720), dateOf (now - 720) + 1] := by
  have he : dateOf (now + 720) = dateOf (now - 720) + 1 := by
    have h720 : now + 720 = now - 720 + 1440 := by ring
    rw [h720, dateOf_add_day]
  unfold calculate_date_window
  rw [he]
  dsimp only
  have hfuel : (dateOf (now - 720) + 1 + 1 - dateOf (now - 720)).toNat = 2 := by omega
  rw [hfuel, collectDates_two]

/-- C7: for every instant `now`, the window of `calculate_date_window`
contains the calendar dates of `now - 12h` and `now + 12h`, and every date in
the window is the calendar date of some instant within `[now - 12h, now + 12h]`
(wall-clock minutes; `datetime` arithmetic on aware datetimes is plain
wall-clock arithmetic). -/
theorem c7_date_window (now : Int) :
    dateOf (now - 720) ∈ calculate_date_window now ∧
    dateOf (now + 720) ∈ calculate_date_window now ∧
    ∀ d ∈ calculate_date_window now, ∃ t, now - 720 ≤ t ∧ t ≤ now + 720 ∧ dateOf t = d := by
  have he : dateOf (now + 720) = dateOf (now - 720) + 1 := by
    have h720 : now + 720 = now - 720 + 1440 := by ring
    rw [h720, dateOf_add_day]
  rw [calculate_date_window_eq]
  refine ⟨by simp, by rw [he]; simp, ?_⟩
  intro d hd
  simp only [List.mem_cons, List.mem_singleton, List.not_mem_nil, or_false] at hd
  rcases hd with rfl | rfl
  · exact ⟨now - 720, by omega, by omega, rfl⟩
  · exact ⟨now + 720, by omega, by omega, he⟩

/-- C7 witness: the window around instant 0 contains date 0, and the theorem
produces an instant of the window mapping to it. -/
theorem c7_date_window_witness :
    ∃ t, (0 : Int) - 720 ≤ t ∧ t ≤ 0 + 720 ∧ dateOf t = 0 :=
  (c7_date_window 0).2.2 0 (by decide)

/-- C3 counterexample: the regex-based form does not leave `"FR9023"`
unchanged; the greedy 2-3-character code group takes `"FR9"` and the
following `"0"` is stripped as zero padding. -/
theorem c3_counterexample : format_flight_number "FR9023" ≠ "FR9023" := by decide

/-- C3 (amended): `"LO 0123"` and `"LO0123"` canonicalize to `"LO123"` under
the fixed-position rule, `"W6 3104"` to `"W63104"` under the regex form, and
`"FR9023"` to `"FR923"` (not unchanged) under the regex form. -/
theorem c3_flight_number_examples :
    clean_flight_number "LO 0123" = "LO123" ∧
    clean_flight_number "LO0123" = "LO123" ∧
    format_flight_number "W6 3104" = "W63104" ∧
    format_flight_number "FR9023" = "FR923" :=
  ⟨by decide, by decide, by decide, by decide⟩

/-- The raw entry used to exhibit the `katowise_v3` call-arity failure. -/
def rawEmptyC2 : RawFlight := {}

/-- C2 (code bug): in `katowise_v3.py`, the loop of `get_flights` calls
`process_flight` with five positional arguments while its definition takes
four, so the very first fetched entry raises a `TypeError` that the
`except requests.RequestException` handler does not catch: the whole batch
aborts instead of appending the normalized record. -/
theorem c2_arity_type_error :
    get_flights_v3 "arrival" 0 tz0 (fun _ => some [rawEmptyC2]) =
      Except.error "TypeError: process_flight() takes 4 positional arguments but 5 were given" := by
  rfl

lemma is_third_char_iff (s : String) :
    is_third_char_alphabet s = true ↔
      ∃ c, s.data.get? 2 = some c ∧ c.isAlpha = false := by
  obtain ⟨l⟩ := s
  rcases l with _ | ⟨a, _ | ⟨b, _ | ⟨c, r⟩⟩⟩ <;>
    simp [is_third_char_alphabet]

/-- C9: in the `19_05_flight.py` normalizer, the emitted `is_flight_number`
flag is true exactly when the canonical flight number has a third character
that is not alphabetic (strings shorter than three characters give false),
and `airline_iata_code` is its first two characters when the flag is true and
`"N/A"` otherwise. -/
theorem c9_iata_heuristic (fd : RawFlight) (direction : Nat)
    (codes : List (String × String)) (tz : Tz) (qd : Int) :
    recGet (process_flight_19 fd direction codes tz qd) "is_flight_number"
        = some (PyVal.pybool (is_third_char_alphabet (clean_flight_number (fd.flight_number.getD "")))) ∧
    (is_third_char_alphabet (clean_flight_number (fd.flight_number.getD "")) = true ↔
        ∃ c, (clean_flight_number (fd.flight_number.getD "")).data.get? 2 = some c ∧ c.isAlpha = false) ∧
    recGet (process_flight_19 fd direction codes tz qd) "airline_iata_code"
        = some (PyVal.str (if is_third_char_alphabet (clean_flight_number (fd.flight_number.getD ""))
                 then get_flight_iata (clean_flight_number (fd.flight_number.getD "")) else "N/A")) := by
  refine ⟨?_, is_third_char_iff _, ?_⟩
  all_goals
    unfold process_flight_19
    dsimp only
    by_cases hd : direction = 2
    · rw [if_pos hd]; rfl
    · rw [if_neg hd]; rfl

/-- C10: in the `19_05_flight.py` normalizer, an empty or missing raw
`flight_number` yields a record with `flight_number` and `callsign` equal to
`"N/A"`, `is_flight_number` false (the third character of `"N/A"` is the
letter `A`), and `airline_iata_code` equal to `"N/A"`; the record is still
produced. -/
theorem c10_missing_flight_number (fd : RawFlight) (direction : Nat)
    (codes : List (String × String)) (tz : Tz) (qd : Int)
    (h : fd.flight_number = Option.none ∨ fd.flight_number = some "") :
    recGet (process_flight_19 fd direction codes tz qd) "flight_number" = some (PyVal.str "N/A") ∧
    recGet (process_flight_19 fd direction codes tz qd) "callsign" = some (PyVal.str "N/A") ∧
    recGet (process_flight_19 fd direction codes tz qd) "is_flight_number" = some (PyVal.pybool false) ∧
    recGet (process_flight_19 fd direction codes tz qd) "airline_iata_code" = some (PyVal.str "N/A") := by
  have hclean : clean_flight_number (fd.flight_number.getD "") = "N/A" := by
    rcases h with h | h <;> rw [h] <;> rfl
  refine ⟨?_, ?_, ?_, ?_⟩
  all_goals
    unfold process_flight_19
    dsimp only
    rw [hclean]
    by_cases hd : direction = 2
    · rw [if_pos hd]; rfl
    · rw [if_neg hd]; rfl

/-- The raw entry (no fields at all) instantiating C10. -/
def rawNoFlightNumber : RawFlight := {}

/-- C10 witness: the missing-flight-number theorem applied to a concrete
fieldless entry under direction 2. -/
theorem c10_missing_flight_number_witness :
    (rawNoFlightNumber.flight_number = Option.none ∨ rawNoFlightNumber.flight_number = some "") ∧
    recGet (process_flight_19 rawNoFlightNumber 2 airport_codes tz0 0) "flight_number"
      = some (PyVal.str "N/A") :=
  ⟨Or.inl rfl, (c10_missing_flight_number rawNoFlightNumber 2 airport_codes tz0 0 (Or.inl rfl)).1⟩

/-- C8: `validate_direction` maps every case-insensitive singular/plural
synonym of departure to 1 and of arrival to 2, and raises `ValueError` on
every other string; with an unrecognized direction, both `get_flights`
variants return that error for every fetch function, i.e. before any network
activity can matter. -/
theorem c8_validate_direction (s : String) :
    (validate_direction s = Except.ok 1 ↔
      pyStrip (pyLower s) ∈ (["departure", "departures"] : List String)) ∧
    (validate_direction s = Except.ok 2 ↔
      pyStrip (pyLower s) ∈ (["arrival", "arrivals"] : List String)) ∧
    (pyStrip (pyLower s) ∉ (["departure", "departures", "arrival", "arrivals"] : List String) →
      validate_direction s = Except.error "Direction must be 'departure' or 'arrival'") ∧
    (∀ now tz fetch,
      pyStrip (pyLower s) ∉ (["departure", "departures", "arrival", "arrivals"] : List String) →
      get_flights_19 s now tz fetch = Except.error "Direction must be 'departure' or 'arrival'" ∧
      get_flights_v3 s now tz fetch = Except.error "Direction must be 'departure' or 'arrival'") := by
  set d := pyStrip (pyLower s) with hdd
  have hval : validate_direction s =
      (if d = "departure" ∨ d = "departures" then Except.ok 1
       else if d = "arrival" ∨ d = "arrivals" then Except.ok 2
       else Except.error "Direction must be 'departure' or 'arrival'") := rfl
  refine ⟨?_, ?_, ?_, ?_⟩
  · rw [hval]
    simp only [List.mem_cons, List.mem_singleton, List.not_mem_nil, or_false]
    by_cases h1 : d = "departure" ∨ d = "departures"
    · rw [if_pos h1]
      exact ⟨fun _ => h1, fun _ => rfl⟩
    · rw [if_neg h1]
      by_cases h2 : d = "arrival" ∨ d = "arrivals"
      · rw [if_pos h2]
        exact ⟨fun hc => absurd hc (by decide), fun hc => absurd hc h1⟩
      · rw [if_neg h2]
        exact ⟨fun hc => absurd hc (by decide), fun hc => absurd hc h1⟩
  · rw [hval]
    simp only [List.mem_cons, List.mem_singleton, List.not_mem_nil, or_false]
    by_cases h1 : d = "departure" ∨ d = "departures"
    · rw [if_pos h1]
      constructor
      · intro hc; exact absurd hc (by decide)
      · intro h2
        rcases h1 with h1 | h1 <;> rcases h2 with h2 | h2 <;>
          (rw [h1] at h2; exact absurd h2 (by decide))
    · rw [if_neg h1]
      by_cases h2 : d = "arrival" ∨ d = "arrivals"
      · rw [if_pos h2]
        exact ⟨fun _ => h2, fun _ => rfl⟩
      · rw [if_neg h2]
        exact ⟨fun hc => absurd hc (by decide), fun hc => absurd hc h2⟩
  · intro hmem
    simp only [List.mem_cons, List.mem_singleton, List.not_mem_nil, or_false, not_or] at hmem
    obtain ⟨n1, n2, n3, n4⟩ := hmem
    rw [hval, if_neg (by tauto), if_neg (by tauto)]
  · intro now tz fetch hmem
    simp only [List.mem_cons, List.mem_singleton, List.not_mem_nil, or_false, not_or] at hmem
    obtain ⟨n1, n2, n3, n4⟩ := hmem
    have hv : validate_direction s = Except.error "Direction must be 'departure' or 'arrival'" := by
      rw [hval, if_neg (by tauto), if_neg (by tauto)]
    constructor
    · unfold get_flights_19
      rw [hv]
    · unfold get_flights_v3
      rw [hv]

/-- A fetch function that always fails (every request raises a caught
`RequestException`). -/
def fetchNone : Int → Option (List RawFlight) := fun _ => Option.none

/-- C8 witness: the string `"sideways"` is no synonym, and `get_flights`
returns the `ValueError` for it whatever the network would have replied. -/
theorem c8_validate_direction_witness :
    (pyStrip (pyLower "sideways") ∉
      (["departure", "departures", "arrival", "arrivals"] : List String)) ∧
    get_flights_19 "sideways" 0 tz0 fetchNone =
      Except.error "Direction must be 'departure' or 'arrival'" :=
  ⟨by decide, ((c8_validate_direction "sideways").2.2.2 0 tz0 fetchNone (by decide)).1⟩

/-- C5: in both `extract_times` variants, when the status has at least two
whitespace-separated tokens and the last one matches `^\d{2}:\d{2}$`, the
estimated and actual slots are both that token run through the variant's time
parser on the query date; otherwise both are `"N/A"`; the scheduled slot is
always the parse of the `scheduled_time` field on the query date. -/
theorem c5_status_time_extraction (status scheduled : String) (tz : Tz) (qd : Int) :
    (((pySplit status).length > 1 ∧ isHHMM ((pySplit status).getLastD "") = true) →
      extract_times_19 status scheduled tz qd =
        (parse_flight_time_19 scheduled qd tz,
         parse_flight_time_19 ((pySplit status).getLastD "") qd tz,
         parse_flight_time_19 ((pySplit status).getLastD "") qd tz) ∧
      extract_times_v3 status scheduled tz qd =
        (parse_flight_time_v3 scheduled qd tz,
         (parse_flight_time_v3 ((pySplit status).getLastD "") qd tz).getD "N/A",
         (parse_flight_time_v3 ((pySplit status).getLastD "") qd tz).getD "N/A")) ∧
    (¬((pySplit status).length > 1 ∧ isHHMM ((pySplit status).getLastD "") = true) →
      extract_times_19 status scheduled tz qd =
        (parse_flight_time_19 scheduled qd tz, "N/A", "N/A") ∧
      extract_times_v3 status scheduled tz qd =
        (parse_flight_time_v3 scheduled qd tz, "N/A", "N/A")) := by
  refine ⟨fun h => ⟨?_, ?_⟩, fun h => ⟨?_, ?_⟩⟩ <;>
    simp only [extract_times_19, extract_times_v3]
  · rw [if_pos h]
  · rw [if_pos h]
  · rw [if_neg h]
  · rw [if_neg h]
    rfl

/-- C5 witness: the extraction theorem applied to status `"Landed 14:05"`
and scheduled time `"10:30"` on date 0 in a fixed +01:00 timezone. -/
theorem c5_status_time_extraction_witness :
    ((pySplit "Landed 14:05").length > 1 ∧
      isHHMM ((pySplit "Landed 14:05").getLastD "") = true) ∧
    extract_times_19 "Landed 14:05" "10:30" tz0 0 =
      (parse_flight_time_19 "10:30" 0 tz0,
       parse_flight_time_19 ((pySplit "Landed 14:05").getLastD "") 0 tz0,
       parse_flight_time_19 ((pySplit "Landed 14:05").getLastD "") 0 tz0) :=
  ⟨by decide, ((c5_status_time_extraction "Landed 14:05" "10:30" tz0 0).1 (by decide)).1⟩

/-- The raw entry whose scheduled time is the malformed clock `"25:99"`. -/
def rawSched2599 : RawFlight := { scheduled_time := some "25:99" }

/-- A healthy raw entry processed after the malformed one in the same
batch. -/
def rawGoodC6 : RawFlight := { flight_number := some "W6 3104", scheduled_time := some "10:30" }

/-- The fetch used for C6: the first window date returns a malformed and a
healthy entry; the second date's request fails (caught and skipped). -/
def fetchC6 : Int → Option (List RawFlight) :=
  fun d => if d = -1 then some [rawSched2599, rawGoodC6] else Option.none

/-- C6 counterexample: in `katowise_v3.py` the scheduled field of a record
with malformed `scheduled_time` `"25:99"` becomes `None`, not the sentinel
`"N/A"` the claim promises. -/
theorem c6_counterexample :
    recGet (process_flight_v3 rawSched2599 2 tz0 0) "scheduled_arrival_time"
        = some PyVal.pynone ∧
    PyVal.pynone ≠ PyVal.str "N/A" :=
  ⟨rfl, by decide⟩

/-- C6 (amended): time parsing never raises: every `parse_flight_time`
outcome is the sentinel or a well-formed timestamp (`19_05` variant), or
`None` or a well-formed timestamp (`katowise_v3` variant); `"25:99"` gives
the sentinel in the `19_05` variant but `None` in the `katowise_v3`
scheduled slot; and a `19_05` batch containing the malformed record still
produces both records, the bad field downgraded to `"N/A"`. -/
theorem c6_malformed_time :
    (∀ s qd tz, TimeStrOK qd tz (parse_flight_time_19 s qd tz)) ∧
    (parse_flight_time_19 "25:99" 0 tz0 = "N/A") ∧
    (∀ s qd tz, parse_flight_time_v3 s qd tz = Option.none ∨
      ∃ h m, h < 24 ∧ m < 60 ∧
        parse_flight_time_v3 s qd tz = some (isoformat qd h m (tz.utcoffset qd h m))) ∧
    (∀ st tz qd, (extract_times_v3 st "25:99" tz qd).1 = Option.none) ∧
    (∃ l, get_flights_19 "arrival" 0 tz0 fetchC6 = Except.ok l ∧ l.length = 2 ∧
      recGet (l.headD []) "scheduled_arrival_time" = some (PyVal.str "N/A")) :=
  ⟨parse19_ok, by decide, parseV3_ok, fun st tz qd => rfl, ⟨_, rfl, rfl, rfl⟩⟩

lemma mem_T_isoformat (d : Int) (h m : Nat) (off : Int) : 'T' ∈ (isoformat d h m off).data := by
  have hT : 'T' ∈ ("T" : String).data := by decide
  unfold isoformat
  simp only [String.data_append, List.mem_append]
  tauto

lemma hhmm_no_T {t : String} (ht : isHHMM t = true) : 'T' ∉ t.data := by
  obtain ⟨l⟩ := t
  intro hmem
  unfold isHHMM at ht
  rcases l with _ | ⟨a, _ | ⟨b, _ | ⟨c, _ | ⟨d, _ | ⟨e, _ | ⟨f, r⟩⟩⟩⟩⟩⟩ <;>
    try exact Bool.noConfusion ht
  simp only [Bool.and_eq_true] at ht
  obtain ⟨⟨⟨⟨h1, h2⟩, h3⟩, h4⟩, h5⟩ := ht
  rcases hmem with _ | ⟨_, _ | ⟨_, _ | ⟨_, _ | ⟨_, _ | ⟨_, hx⟩⟩⟩⟩⟩
  · exact absurd h1 (by decide)
  · exact absurd h2 (by decide)
  · exact absurd h3 (by decide)
  · exact absurd h4 (by decide)
  · exact absurd h5 (by decide)
  · cases hx

lemma isoformat_not_bare (d : Int) (h m : Nat) (off : Int) :
    isHHMM (isoformat d h m off) = false ∧ isoformat d h m off ≠ "N/A" := by
  constructor
  · cases hE : isHHMM (isoformat d h m off)
    · rfl
    · exact absurd (mem_T_isoformat d h m off) (hhmm_no_T hE)
  · intro hEq
    have hmem := mem_T_isoformat d h m off
    rw [hEq] at hmem
    exact absurd hmem (by decide)

lemma extract19_fst_ok (st sc : String) (tz : Tz) (qd : Int) :
    TimeStrOK qd tz (extract_times_19 st sc tz qd).1 :=
  parse19_ok sc qd tz

lemma extract19_est_ok (st sc : String) (tz : Tz) (qd : Int) :
    TimeStrOK qd tz (extract_times_19 st sc tz qd).2.1 := by
  unfold extract_times_19
  dsimp only
  split
  · exact parse19_ok _ qd tz
  · exact Or.inl rfl

lemma extractV3_est_ok (st sc : String) (tz : Tz) (qd : Int) :
    TimeStrOK qd tz (extract_times_v3 st sc tz qd).2.1 := by
  unfold extract_times_v3
  dsimp only
  split
  · rcases parseV3_ok ((pySplit st).getLastD "") qd tz with hn | ⟨h, m, h1, h2, he⟩
    · rw [hn]; exact Or.inl rfl
    · rw [he]; exact Or.inr ⟨h, m, h1, h2, rfl⟩
  · exact Or.inl rfl

lemma pyOfOpt_sched_ok (st sc : String) (tz : Tz) (qd : Int) :
    pyOfOpt (extract_times_v3 st sc tz qd).1 = PyVal.pynone ∨
    ∃ h m, h < 24 ∧ m < 60 ∧ pyOfOpt (extract_times_v3 st sc tz qd).1
        = PyVal.str (isoformat qd h m (tz.utcoffset qd h m)) := by
  have h0 : (extract_times_v3 st sc tz qd).1 = parse_flight_time_v3 sc qd tz := rfl
  rcases parseV3_ok sc qd tz with hn | ⟨h, m, h1, h2, he⟩
  · left
    rw [h0, hn]
    rfl
  · right
    exact ⟨h, m, h1, h2, by rw [h0, he]; rfl⟩

/-- The raw entry (no fields) whose katowise_v3 record has a `None`
scheduled time. -/
def rawNoSched : RawFlight := {}

/-- C1 counterexample: in `katowise_v3.py`, a record with missing
`scheduled_time` carries `None` (not a timestamp string and not `"N/A"`) in
its `scheduled_arrival_time` field. -/
theorem c1_counterexample :
    recGet (process_flight_v3 rawNoSched 2 tz0 0) "scheduled_arrival_time" = some PyVal.pynone ∧
    ∀ s, PyVal.pynone ≠ PyVal.str s :=
  ⟨rfl, fun _ h => PyVal.noConfusion h⟩

/-- C1 (amended): every time field of a `19_05_flight.py` record, and every
estimated/actual field of a `katowise_v3.py` record, is a string that is
either the timezone-aware ISO timestamp of a valid time on the query date or
the sentinel `"N/A"` (and such a timestamp is never a bare `HH:MM` string and
never the sentinel); the `katowise_v3.py` scheduled field is either such a
timestamp string or `None`. -/
theorem c1_time_fields :
    (∀ fd (direction : Nat) codes tz qd, ∀ k ∈ timeFieldNames, ∀ v,
        recGet (process_flight_19 fd direction codes tz qd) k = some v →
        ∃ s, v = PyVal.str s ∧ TimeStrOK qd tz s) ∧
    (∀ fd (direction : Nat) tz qd, ∀ k ∈ estActFieldNames, ∀ v,
        recGet (process_flight_v3 fd direction tz qd) k = some v →
        ∃ s, v = PyVal.str s ∧ TimeStrOK qd tz s) ∧
    (∀ fd (direction : Nat) tz qd, ∀ k ∈ schedFieldNames, ∀ v,
        recGet (process_flight_v3 fd direction tz qd) k = some v →
        v = PyVal.pynone ∨ ∃ h m, h < 24 ∧ m < 60 ∧
          v = PyVal.str (isoformat qd h m (tz.utcoffset qd h m))) ∧
    (∀ d h m off, isHHMM (isoformat d h m off) = false ∧ isoformat d h m off ≠ "N/A") := by
  refine ⟨?_, ?_, ?_, isoformat_not_bare⟩
  · intro fd direction codes tz qd k hk v hv
    simp only [timeFieldNames, List.mem_cons, List.mem_singleton, List.not_mem_nil, or_false] at hk
    unfold process_flight_19 at hv
    dsimp only at hv
    by_cases hd : direction = 2 <;>
      first
        | rw [if_pos hd] at hv
        | rw [if_neg hd] at hv
    all_goals rcases hk with rfl | rfl | rfl | rfl | rfl | rfl
    all_goals
      first
        | exact Option.noConfusion hv
        | (replace hv : some (PyVal.str ((extract_times_19 (pyStrip (fd.status.getD ""))
              (fd.scheduled_time.getD "") tz qd)).1) = some v := hv
           injection hv with hv
           exact hv ▸ ⟨_, rfl, extract19_fst_ok _ _ _ _⟩)
        | (replace hv : some (PyVal.str ((extract_times_19 (pyStrip (fd.status.getD ""))
              (fd.scheduled_time.getD "") tz qd)).2.1) = some v := hv
           injection hv with hv
           exact hv ▸ ⟨_, rfl, extract19_est_ok _ _ _ _⟩)
  · intro fd direction tz qd k hk v hv
    simp only [estActFieldNames, List.mem_cons, List.mem_singleton, List.not_mem_nil, or_false] at hk
    unfold process_flight_v3 at hv
    dsimp only at hv
    by_cases hd : direction = 2 <;>
      first
        | rw [if_pos hd] at hv
        | rw [if_neg hd] at hv
    all_goals rcases hk with rfl | rfl | rfl | rfl
    all_goals
      first
        | exact Option.noConfusion hv
        | (replace hv : some (PyVal.str ((extract_times_v3 (pyStrip (fd.status.getD ""))
              (fd.scheduled_time.getD "") tz qd)).2.1) = some v := hv
           injection hv with hv
           exact hv ▸ ⟨_, rfl, extractV3_est_ok _ _ _ _⟩)
  · intro fd direction tz qd k hk v hv
    simp only [schedFieldNames, List.mem_cons, List.mem_singleton, List.not_mem_nil, or_false] at hk
    unfold process_flight_v3 at hv
    dsimp only at hv
    by_cases hd : direction = 2 <;>
      first
        | rw [if_pos hd] at hv
        | rw [if_neg hd] at hv
    all_goals rcases hk with rfl | rfl
    all_goals
      first
        | exact Option.noConfusion hv
        | (replace hv : some (pyOfOpt ((extract_times_v3 (pyStrip (fd.status.getD ""))
              (fd.scheduled_time.getD "") tz qd)).1) = some v := hv
           injection hv with hv
           exact hv ▸ pyOfOpt_sched_ok _ _ _ _)

/-- The raw entry instantiating the C1 witness. -/
def rawC1W : RawFlight := { status := some "Landed 14:05", scheduled_time := some "10:30" }

/-- C1 witness: the amended invariant applied to a concrete arrival record
whose status embeds the clock `14:05`. -/
theorem c1_time_fields_witness :
    ("estimated_arrival_time" ∈ timeFieldNames) ∧
    (∃ s, PyVal.str (isoformat 0 14 5 60) = PyVal.str s ∧ TimeStrOK 0 tz0 s) :=
  ⟨by decide,
   c1_time_fields.1 rawC1W 2 airport_codes tz0 0 "estimated_arrival_time" (by decide)
     (PyVal.str (isoformat 0 14 5 60)) rfl⟩

lemma azDigit_not_space {c : Char} (h : azDigit c = true) : pyIsSpace c = false := by
  cases hs : pyIsSpace c
  · rfl
  · exfalso
    unfold pyIsSpace at hs
    unfold azDigit at h
    simp only [Bool.or_eq_true, Bool.and_eq_true, decide_eq_true_eq] at hs h
    have h6 : c = ' ' ∨ c = '\t' ∨ c = '\n' ∨ c = '\r' ∨ c = '\x0b' ∨ c = '\x0c' := by tauto
    rcases h6 with rfl | rfl | rfl | rfl | rfl | rfl <;> revert h <;> decide

lemma isDigit_not_space {c : Char} (h : c.isDigit = true) : pyIsSpace c = false := by
  cases hs : pyIsSpace c
  · rfl
  · exfalso
    unfold pyIsSpace at hs
    simp only [Bool.or_eq_true, decide_eq_true_eq] at hs
    have h6 : c = ' ' ∨ c = '\t' ∨ c = '\n' ∨ c = '\r' ∨ c = '\x0b' ∨ c = '\x0c' := by tauto
    rcases h6 with rfl | rfl | rfl | rfl | rfl | rfl <;> exact absurd h (by decide)

lemma isDigit_azDigit {c : Char} (h : c.isDigit = true) : azDigit c = true := by
  unfold azDigit
  rw [h, Bool.or_true]

lemma dropWhile_cons_of_neg {p : Char → Bool} {x : Char} {xs : List Char} (h : p x = false) :
    (x :: xs).dropWhile p = x :: xs := by
  rw [List.dropWhile_cons, h]
  simp

lemma dropWhile_append_of_ne_nil {p : Char → Bool} {L : List Char} (hne : L ≠ [])
    (hall : ∀ c ∈ L, p c = false) (rest : List Char) :
    (L ++ rest).dropWhile p = L ++ rest := by
  cases L with
  | nil => exact absurd rfl hne
  | cons x xs =>
    have hx : p x = false := hall x (List.mem_cons_self x xs)
    show ((x :: (xs ++ rest)).dropWhile p) = _
    rw [dropWhile_cons_of_neg hx]
    rfl

lemma splitOnChar_no_sep (sep : Char) :
    ∀ (l : List Char), (∀ c ∈ l, ¬(c = sep)) → splitOnChar sep l = [l] := by
  intro l
  induction l with
  | nil => intro _; rfl
  | cons c cs ih =>
    intro h
    have hr : splitOnChar sep cs = [cs] := ih (fun x hx => h x (List.mem_cons_of_mem c hx))
    have hc : ¬(c = sep) := h c (List.mem_cons_self c cs)
    show (if c = sep then [] :: splitOnChar sep cs
          else (c :: (splitOnChar sep cs).headD []) :: (splitOnChar sep cs).tail) = [c :: cs]
    rw [hr, if_neg hc]
    rfl

/-- C4 counterexample: on `"FR9023"` the fixed-position strategy returns the
input unchanged while the regex strategy strips the zero after the greedy
three-character code, so the two canonicalizations disagree. -/
theorem c4_counterexample :
    clean_flight_number "FR9023" = "FR9023" ∧
    format_flight_number "FR9023" = "FR923" ∧
    clean_flight_number "FR9023" ≠ format_flight_number "FR9023" :=
  ⟨by decide, by decide, by decide⟩

/-- C4 (amended): the two canonicalization strategies agree on
space-separated raw flight numbers whose code is two `[A-Z0-9]` characters
and whose numeric tail has at most one leading zero followed by a nonzero
digit; in general they disagree (see the counterexample). -/
theorem c4_strategies_agree (a b d : Char) (ds t : List Char)
    (ht : t = d :: ds ∨ t = '0' :: d :: ds)
    (ha : azDigit a = true) (hb : azDigit b = true)
    (hd : d.isDigit = true) (hd0 : ¬(d = '0'))
    (hds : ∀ c ∈ ds, c.isDigit = true) :
    clean_flight_number (String.mk (a :: b :: ' ' :: t)) =
      format_flight_number (String.mk (a :: b :: ' ' :: t)) := by
  have htd : ∀ c ∈ t, c.isDigit = true := by
    rcases ht with rfl | rfl <;> intro c hc <;> simp only [List.mem_cons] at hc
    · rcases hc with rfl | hc
      · exact hd
      · exact hds c hc
    · rcases hc with rfl | rfl | hc
      · decide
      · exact hd
      · exact hds c hc
  have htne : t ≠ [] := by rcases ht with rfl | rfl <;> simp
  have htns : ∀ c ∈ t, ¬(c = ' ') := by
    intro c hc hsp
    have hdig := htd c hc
    rw [hsp] at hdig
    exact absurd hdig (by decide)
  have hans : pyIsSpace a = false := azDigit_not_space ha
  have hrev : (a :: b :: ' ' :: t).reverse = t.reverse ++ [' ', b, a] := by simp
  have hrevne : t.reverse ≠ [] := by simpa using htne
  have hrevall : ∀ c ∈ t.reverse, pyIsSpace c = false := by
    intro c hc
    exact isDigit_not_space (htd c (List.mem_reverse.mp hc))
  have hstrip : pyStrip (String.mk (a :: b :: ' ' :: t)) = String.mk (a :: b :: ' ' :: t) := by
    unfold pyStrip
    rw [show (a :: b :: ' ' :: t).dropWhile pyIsSpace = a :: b :: ' ' :: t from
          dropWhile_cons_of_neg hans,
        hrev, dropWhile_append_of_ne_nil hrevne hrevall [' ', b, a], ← hrev,
        List.reverse_reverse]
  have hsplit1 : splitOnChar ' ' t = [t] := splitOnChar_no_sep ' ' t htns
  have hsplit2 : splitOnChar ' ' (' ' :: t) = [[], t] := by
    show (if ' ' = ' ' then [] :: splitOnChar ' ' t
          else (' ' :: (splitOnChar ' ' t).headD []) :: (splitOnChar ' ' t).tail) = [[], t]
    rw [if_pos rfl, hsplit1]
  have hbns : ¬(b = ' ') := by
    intro hbe
    rw [hbe] at hb
    exact absurd hb (by decide)
  have hans' : ¬(a = ' ') := by
    intro hae
    rw [hae] at ha
    exact absurd ha (by decide)
  have hsplit3 : splitOnChar ' ' (b :: ' ' :: t) = [[b], t] := by
    show (if b = ' ' then [] :: splitOnChar ' ' (' ' :: t)
          else (b :: (splitOnChar ' ' (' ' :: t)).headD []) :: (splitOnChar ' ' (' ' :: t)).tail)
        = [[b], t]
    rw [if_neg hbns, hsplit2]
    rfl
  have hsplit4 : splitOnChar ' ' (a :: b :: ' ' :: t) = [[a, b], t] := by
    show (if a = ' ' then [] :: splitOnChar ' ' (b :: ' ' :: t)
          else (a :: (splitOnChar ' ' (b :: ' ' :: t)).headD [])
            :: (splitOnChar ' ' (b :: ' ' :: t)).tail) = [[a, b], t]
    rw [if_neg hans', hsplit3]
    rfl
  have hne0 : ¬(String.mk (a :: b :: ' ' :: t) = "") := by
    intro hemp
    exact List.noConfusion (congrArg String.data hemp)
  have hcont : ((String.mk (a :: b :: ' ' :: t)).data.contains ' ') = true := by
    show ((a :: b :: ' ' :: t).contains ' ') = true
    simp
  have hsplitOn : pySplitOn (String.mk (a :: b :: ' ' :: t)) ' '
      = [String.mk [a, b], String.mk t] := by
    unfold pySplitOn
    show (splitOnChar ' ' (a :: b :: ' ' :: t)).map String.mk = _
    rw [hsplit4]
    rfl
  have hclean : clean_flight_number (String.mk (a :: b :: ' ' :: t))
      = String.mk ([a, b] ++ d :: ds) := by
    unfold clean_flight_number
    rw [if_neg hne0, hstrip]
    dsimp only
    rw [if_pos hcont, hsplitOn]
    dsimp only [List.headD, List.getLastD]
    rcases ht with rfl | rfl
    · rw [if_neg (by simp [hd0])]
      rfl
    · rw [if_pos (by rfl)]
      rfl
  have hdropT : t.dropWhile (fun c => c = '0') = d :: ds := by
    rcases ht with rfl | rfl
    · exact dropWhile_cons_of_neg (by simp [hd0])
    · show (('0' :: d :: ds).dropWhile fun c => c = '0') = d :: ds
      rw [List.dropWhile_cons, if_pos (by decide)]
      exact dropWhile_cons_of_neg (by simp [hd0])
  have hheadT : t.dropWhile pyIsSpace = t := by
    rcases ht with rfl | rfl
    · exact dropWhile_cons_of_neg (isDigit_not_space hd)
    · exact dropWhile_cons_of_neg (isDigit_not_space (by decide))
  have hregex : regexTail (' ' :: t) = some (d :: ds) := by
    unfold regexTail
    have h1 : (' ' :: t).dropWhile pyIsSpace = t := by
      rw [List.dropWhile_cons, if_pos (by decide)]
      exact hheadT
    rw [h1]
    rw [if_neg (by simpa using htne)]
    rw [if_pos (by simpa [List.all_eq_true] using htd)]
    rw [hdropT]
  have hf3 : fmtTry (a :: b :: ' ' :: t) 3 = Option.none := by
    unfold fmtTry
    rw [if_neg ?hcond]
    case hcond =>
      intro hcond
      simp only [List.take, List.all_cons, Bool.and_eq_true] at hcond
      exact absurd hcond.2.2.2.1 (by decide)
  have hf2 : fmtTry (a :: b :: ' ' :: t) 2 = some (String.mk ([a, b] ++ d :: ds)) := by
    unfold fmtTry
    rw [if_pos (by simp [List.all_cons, ha, hb])]
    show (regexTail (' ' :: t)).map _ = _
    rw [hregex]
    rfl
  have hformat : format_flight_number (String.mk (a :: b :: ' ' :: t))
      = String.mk ([a, b] ++ d :: ds) := by
    unfold format_flight_number
    rw [hstrip]
    dsimp only
    rw [hf3]
    dsimp only
    rw [hf2]
  rw [hclean, hformat]

/-- C4 witness: the agreement theorem applied to the concrete raw string
`"W6 3104"` (as its character list). -/
theorem c4_strategies_agree_witness :
    clean_flight_number (String.mk ['W', '6', ' ', '3', '1', '0', '4']) =
      format_flight_number (String.mk ['W', '6', ' ', '3', '1', '0', '4']) :=
  c4_strategies_agree 'W' '6' '3' ['1', '0', '4'] ['3', '1', '0', '4'] (Or.inl rfl)
    (by decide) (by decide) (by decide) (by decide) (by decide)
